import Mathlib

/-!
Verification of the command-resolution engine of the wapm-cli repository.

The engine itself (`src/dataflow/find_command_result.rs`) and the config
accessors (`src/config.rs`) are embedded directly from the source.  The
`Manifest` and `Lockfile` data models and their loaders live outside the
provided sources, so they are modelled from the specification, with a doc
comment marking each such definition.
-/

namespace Wapm

/-- Modelled from the spec: filesystem paths (Rust `PathBuf`) are treated as
opaque strings; the missing path layer only ever joins a base directory with
a relative path. -/
abbrev Path := String

/-- Modelled from the spec: a path is absolute when it starts with the
separator character. -/
def pathIsAbsolute (p : Path) : Bool :=
  match p.data with
  | c :: _ => c = '/'
  | [] => false

/-- Modelled from the spec: whether a path already ends with the separator
character. -/
def pathEndsWithSep (p : Path) : Bool :=
  match p.data.getLast? with
  | some c => c = '/'
  | none => false

/-- Modelled from the spec: `PathBuf::join` of a base directory and a path;
an absolute right-hand side replaces the base, mirroring Rust semantics. -/
def pathJoin (a b : Path) : Path :=
  if pathIsAbsolute b then b
  else if pathEndsWithSep a then a ++ b
  else a ++ ("/") ++ b

/-- Modelled from the spec: a manifest module has a `name` and a `source`
path recorded relative to the manifest's `base_directory_path`. -/
structure Module where
  name : String
  source : Path
  deriving DecidableEq

/-- Modelled from the spec: the manifest's own package (only the name is
consulted by the resolution engine). -/
structure Package where
  name : String
  deriving DecidableEq

/-- Modelled from the spec: in-memory manifest with its package, optional
module list, and the absolute directory the manifest was loaded from. -/
structure Manifest where
  package : Package
  module : Option (List Module)
  base_directory_path : Path
  deriving DecidableEq

/-- Modelled from the spec: a lockfile command entry, keyed by command name
in the lockfile's command table. -/
structure LockfileCommand where
  name : String
  package_name : String
  package_version : String
  module : String
  main_args : Option String
  deriving DecidableEq

/-- Modelled from the spec: a lockfile module entry; `source` is recorded
relative to the lockfile's own directory, `manifest_rel_path` is the derived
working-directory path, and `prehashed_module_key` is the content-addressed
cache key computed by the installation pipeline. -/
structure LockfileModule where
  name : String
  source : Path
  manifest_rel_path : Path
  prehashed_module_key : String
  deriving DecidableEq

/-- Modelled from the spec: the lockfile holds a module table keyed by
`(package_name, package_version, module_name)` and a command table keyed by
command name. -/
structure Lockfile where
  modules : List ((String × String × String) × LockfileModule)
  commands : List (String × LockfileCommand)
  deriving DecidableEq

/-- Modelled from the spec: the lockfile's own error type; `commandNotFound`
is its command-lookup failure, `other` stands for every other lockfile
error variant. -/
inductive LockfileError where
  | commandNotFound (name : String)
  | other (msg : String)
  deriving DecidableEq

/-- Modelled from the spec: command-table lookup; an absent name yields the
lockfile's own command-not-found error. -/
def Lockfile.get_command (l : Lockfile) (command_name : String) :
    Except LockfileError LockfileCommand :=
  match l.commands.find? (fun p => p.fst == command_name) with
  | some p => Except.ok p.snd
  | none => Except.error (LockfileError.commandNotFound command_name)

/-- Modelled from the spec: module-table lookup by the
`(package_name, package_version, module_name)` key; failure carries an
opaque error message. -/
def Lockfile.get_module (l : Lockfile) (package_name package_version module_name : String) :
    Except String LockfileModule :=
  match l.modules.find? (fun p => p.fst == (package_name, package_version, module_name)) with
  | some p => Except.ok p.snd
  | none => Except.error ("module not found in lockfile")

/-- Modelled from the spec: the content-addressed cache key of the module a
command refers to, when that module exists in the module table. -/
def Lockfile.get_prehashed_cache_key_from_command (l : Lockfile) (cmd : LockfileCommand) :
    Option String :=
  (l.modules.find?
      (fun p => p.fst == (cmd.package_name, cmd.package_version, cmd.module))).map
    (fun p => p.snd.prehashed_module_key)

/-- Modelled from the spec: canonicalize the module's recorded source path
against the directory the lockfile was loaded from. -/
def LockfileModule.get_canonical_source_path_from_lockfile_dir
    (m : LockfileModule) (directory : Path) : Path :=
  pathJoin directory m.source

/-- Modelled from the spec: canonicalize the module's derived
manifest/working-directory path against the directory the lockfile was
loaded from (the boolean flag of the source signature does not affect the
anchoring described by the spec). -/
def LockfileModule.get_canonical_manifest_path_from_lockfile_dir
    (m : LockfileModule) (directory : Path) (_is_global : Bool) : Path :=
  pathJoin directory m.manifest_rel_path

/-- The `Error` enum of `find_command_result.rs` (payloads are the command
name plus, per variant, a rendered cause or the missing module name). -/
inductive Error where
  | commandNotFound (cmd : String)
  | commandNotFoundInLocalDirectoryAndErrorReadingGlobalDirectory (cmd cause : String)
  | errorReadingLocalDirectory (cmd cause : String)
  | commandFoundButCorrespondingModuleIsMissing (cmd module_name : String)
  | couldNotOpenGlobalsDirectory (cmd cause : String)
  deriving DecidableEq

/-- The dynamic `anyhow::Error` payload carried by `FindCommandResult::Error`:
either a converted lockfile error, a resolution `Error`, the module-lookup
failure of `Lockfile::get_module`, or a loader (parse/IO) failure. -/
inductive ErrAny where
  | lockfile (e : LockfileError)
  | resolve (e : Error)
  | getModule (msg : String)
  | manifestLoad (msg : String)
  | lockfileLoad (msg : String)
  deriving DecidableEq

/-- Modelled from the spec: rendering of a lockfile error as a string (the
exact text lives outside the provided sources and is immaterial). -/
def LockfileError.toStr : LockfileError → String
  | LockfileError.commandNotFound c => ("command not found: ") ++ c
  | LockfileError.other msg => msg

/-- Display rendering of the `Error` enum, following the `thiserror`
format attributes in the source (including their argument indices). -/
def Error.display : Error → String
  | Error.commandNotFound c =>
      ("Command \"") ++ c ++ ("\" was not found in the local directory or the global install directory.")
  | Error.commandNotFoundInLocalDirectoryAndErrorReadingGlobalDirectory c cause =>
      ("Command \"") ++ c ++ ("\" was not found in the local directory. There was an error parsing the global lockfile. ") ++ cause
  | Error.errorReadingLocalDirectory c cause =>
      ("Could not get command \"") ++ c ++ ("\" because there was a problem with the local package. ") ++ cause
  | Error.commandFoundButCorrespondingModuleIsMissing c _module_name =>
      ("Command \"") ++ c ++ ("\" exists in lockfile, but corresponding module \"") ++ c ++ ("\" not found in lockfile.")
  | Error.couldNotOpenGlobalsDirectory c _cause =>
      ("Failed to get command \"") ++ c ++ ("\" because there was an error opening the global installation directory. ") ++ c

/-- Rendering of the dynamic error payload, standing for
`anyhow::Error::to_string`. -/
def ErrAny.toStr : ErrAny → String
  | ErrAny.lockfile e => e.toStr
  | ErrAny.resolve e => e.display
  | ErrAny.getModule msg => msg
  | ErrAny.manifestLoad msg => msg
  | ErrAny.lockfileLoad msg => msg

/-- The `FindCommandResult` enum: the three-way resolution outcome of one
scope. -/
inductive FindCommandResult where
  | commandNotFound (name : String)
  | commandFound (source : Path) (manifest_dir : Path) (args : Option String)
      (module_name : String) (prehashed_cache_key : Option String)
  | error (e : ErrAny)
  deriving DecidableEq

/-- The `From<LockfileError> for FindCommandResult` conversion: the
lockfile's command-not-found error becomes the `CommandNotFound` outcome,
every other lockfile error becomes the `Error` outcome. -/
def FindCommandResult.fromLockfileError : LockfileError → FindCommandResult
  | LockfileError.commandNotFound c => FindCommandResult.commandNotFound c
  | e => FindCommandResult.error (ErrAny.lockfile e)

/-- Embedding of `FindCommandResult::find_command_in_manifest_and_lockfile`. -/
def FindCommandResult.find_command_in_manifest_and_lockfile
    (command_name : String) (manifest : Manifest) (lockfile : Lockfile)
    (directory : Path) : FindCommandResult :=
  match lockfile.get_command command_name with
  | Except.error e => FindCommandResult.fromLockfileError e
  | Except.ok lockfile_command =>
    if lockfile_command.package_name = manifest.package.name then
      match manifest.module.bind
          (fun modules => modules.find? (fun m => m.name == lockfile_command.module)) with
      | some module =>
          FindCommandResult.commandFound module.source manifest.base_directory_path
            lockfile_command.main_args module.name none
      | none =>
          FindCommandResult.error (ErrAny.resolve
            (Error.commandFoundButCorrespondingModuleIsMissing command_name
              lockfile_command.module))
    else
      match lockfile.get_module lockfile_command.package_name
          lockfile_command.package_version lockfile_command.module with
      | Except.ok lockfile_module =>
          FindCommandResult.commandFound
            (lockfile_module.get_canonical_source_path_from_lockfile_dir directory)
            (lockfile_module.get_canonical_manifest_path_from_lockfile_dir directory true)
            lockfile_command.main_args
            lockfile_module.name
            (lockfile.get_prehashed_cache_key_from_command lockfile_command)
      | Except.error e => FindCommandResult.error (ErrAny.getModule e)

/-- Embedding of `FindCommandResult::find_command_in_lockfile`. -/
def FindCommandResult.find_command_in_lockfile
    (command_name : String) (lockfile : Lockfile) (directory : Path) :
    FindCommandResult :=
  match lockfile.get_command command_name with
  | Except.ok lockfile_command =>
    match lockfile.get_module lockfile_command.package_name
        lockfile_command.package_version lockfile_command.module with
    | Except.ok lockfile_module =>
        FindCommandResult.commandFound
          (lockfile_module.get_canonical_source_path_from_lockfile_dir directory)
          (lockfile_module.get_canonical_manifest_path_from_lockfile_dir directory true)
          lockfile_command.main_args
          lockfile_module.name
          (lockfile.get_prehashed_cache_key_from_command lockfile_command)
    | Except.error _e => FindCommandResult.commandNotFound command_name
  | Except.error _e => FindCommandResult.commandNotFound command_name

/-- Modelled from the spec: the three-way outcome of the manifest loader for
a directory (absent, present and parsed, or parse/IO error). -/
inductive ManifestResult where
  | manifest (m : Manifest)
  | noManifest
  | manifestError (msg : String)
  deriving DecidableEq

/-- Modelled from the spec: the three-way outcome of the lockfile loader for
a directory (absent, present and parsed, or parse/IO error). -/
inductive LockfileResult where
  | lockfile (l : Lockfile)
  | noLockfile
  | lockfileError (msg : String)
  deriving DecidableEq

/-- Decidable equality for `Except`, needed to evaluate resolution results
on concrete inputs. -/
instance instDecEqExcept {ε α : Type} [DecidableEq ε] [DecidableEq α] :
    DecidableEq (Except ε α) := fun a b =>
  match a, b with
  | Except.ok x, Except.ok y =>
      if h : x = y then isTrue (by rw [h]) else isFalse (by intro hc; cases hc; exact h rfl)
  | Except.error x, Except.error y =>
      if h : x = y then isTrue (by rw [h]) else isFalse (by intro hc; cases hc; exact h rfl)
  | Except.ok _, Except.error _ => isFalse (fun hc => Except.noConfusion hc)
  | Except.error _, Except.ok _ => isFalse (fun hc => Except.noConfusion hc)

/-- Outcome of a Rust computation that may panic: either a value or an
aborted run carrying the panic message. -/
inductive Panics (α : Type) where
  | ok (a : α)
  | panicked (msg : String)
  deriving DecidableEq

/-- Modelled from the spec: the external collaborators of the engine — the
two loaders viewed as functions of the searched directory, the
current-directory accessor, and the global directory locator. -/
structure Env where
  find_manifest : Path → ManifestResult
  find_lockfile : Path → LockfileResult
  current_dir : Except String Path
  globals_directory : Except String Path

/-- Embedding of `FindCommandResult::find_command_in_directory`: the 2x2
decision over loader outcomes, with the manifest-without-lockfile branch
panicking. -/
def FindCommandResult.find_command_in_directory (env : Env) (directory : Path)
    (command_name : String) : Panics FindCommandResult :=
  match env.find_manifest directory, env.find_lockfile directory with
  | ManifestResult.manifestError e, _ =>
      Panics.ok (FindCommandResult.error (ErrAny.manifestLoad e))
  | _, LockfileResult.lockfileError e =>
      Panics.ok (FindCommandResult.error (ErrAny.lockfileLoad e))
  | ManifestResult.noManifest, LockfileResult.noLockfile =>
      Panics.ok (FindCommandResult.commandNotFound command_name)
  | ManifestResult.noManifest, LockfileResult.lockfile l =>
      Panics.ok (FindCommandResult.find_command_in_lockfile command_name l directory)
  | ManifestResult.manifest _m, LockfileResult.noLockfile =>
      Panics.panicked ("Manifest exists, but lockfile not found!")
  | ManifestResult.manifest m, LockfileResult.lockfile l =>
      Panics.ok (FindCommandResult.find_command_in_manifest_and_lockfile command_name m l directory)

/-- The `Command` struct returned to callers: the execution descriptor. -/
structure Command where
  source : Path
  manifest_dir : Path
  args : Option String
  module_name : String
  is_global : Bool
  prehashed_cache_key : Option String
  deriving DecidableEq

/-- Embedding of `get_command_from_anywhere`: local scope first, global
scope only on local absence; `get_current_dir().unwrap()` panics on
failure. -/
def get_command_from_anywhere (env : Env) (command_name : String) :
    Panics (Except Error Command) :=
  match env.current_dir with
  | Except.error e => Panics.panicked (("called unwrap on an Err value: ") ++ e)
  | Except.ok current_directory =>
    match FindCommandResult.find_command_in_directory env current_directory command_name with
    | Panics.panicked msg => Panics.panicked msg
    | Panics.ok local_command_result =>
      match local_command_result with
      | FindCommandResult.commandFound source manifest_dir args module_name key =>
          Panics.ok (Except.ok
            { source := source, manifest_dir := manifest_dir, args := args,
              module_name := module_name, is_global := false,
              prehashed_cache_key := key })
      | FindCommandResult.error e =>
          Panics.ok (Except.error
            (Error.errorReadingLocalDirectory command_name e.toStr))
      | FindCommandResult.commandNotFound _cmd =>
        match env.globals_directory with
        | Except.error e =>
            Panics.ok (Except.error
              (Error.couldNotOpenGlobalsDirectory command_name e))
        | Except.ok global_directory =>
          match FindCommandResult.find_command_in_directory env global_directory command_name with
          | Panics.panicked msg => Panics.panicked msg
          | Panics.ok global_command_result =>
            match global_command_result with
            | FindCommandResult.commandFound source manifest_dir args module_name key =>
                Panics.ok (Except.ok
                  { source := source, manifest_dir := manifest_dir, args := args,
                    module_name := module_name, is_global := true,
                    prehashed_cache_key := key })
            | FindCommandResult.error e =>
                Panics.ok (Except.error
                  (Error.commandNotFoundInLocalDirectoryAndErrorReadingGlobalDirectory
                    command_name e.toStr))
            | FindCommandResult.commandNotFound _ =>
                Panics.ok (Except.error (Error.commandNotFound command_name))

/-- The `Registry` section of the config: registry url and optional token. -/
structure Registry where
  url : String
  token : Option String
  deriving DecidableEq

/-- The `Telemetry` section of the config. -/
structure Telemetry where
  enabled : String
  deriving DecidableEq

/-- The `UpdateNotifications` section of the config. -/
structure UpdateNotifications where
  enabled : String
  deriving DecidableEq

/-- The `Proxy` section of the config. -/
structure Proxy where
  url : Option String
  deriving DecidableEq

/-- The `Config` struct of `config.rs`, with the default feature set (the
telemetry and update-notifications sections present). -/
structure Config where
  wax_cooldown : Int
  registry : Registry
  telemetry : Telemetry
  update_notifications : UpdateNotifications
  proxy : Proxy
  deriving DecidableEq

/-- The `ConfigError` enum of `config.rs`. -/
inductive ConfigError where
  | keyNotFound (key : String)
  | canNotParse (value key : String)
  deriving DecidableEq

/-- Embedding of the free function `get` of `config.rs`: keyed accessor over
the config; the `registry.token` arm is `unimplemented!()` and panics. -/
def Config.get (config : Config) (key : String) :
    Panics (Except ConfigError String) :=
  if key = "registry.url" then
    Panics.ok (Except.ok config.registry.url)
  else if key = "registry.token" then
    Panics.panicked ("not implemented")
  else if key = "telemetry.enabled" then
    Panics.ok (Except.ok config.telemetry.enabled)
  else if key = "update-notifications.enabled" then
    Panics.ok (Except.ok config.update_notifications.enabled)
  else if key = "proxy.url" then
    Panics.ok (Except.ok (match config.proxy.url with
      | some url => url
      | none => ("No proxy configured")))
  else if key = "wax.cooldown" then
    Panics.ok (Except.ok (toString config.wax_cooldown))
  else
    Panics.ok (Except.error (ConfigError.keyNotFound key))

/-- Concrete manifest module `run` with recorded source path `run.wasm`. -/
def moduleRun : Module := { name := "run", source := "run.wasm" }

/-- Concrete manifest: package `myapp` with the single module `run`, loaded
from `/proj`. -/
def manifestLocal : Manifest :=
  { package := { name := "myapp" },
    module := some [moduleRun],
    base_directory_path := "/proj" }

/-- Concrete lockfile command entry: `run`, owned by `myapp`, referring to
module `run`. -/
def commandRunLocal : LockfileCommand :=
  { name := "run", package_name := "myapp", package_version := "1.0.0",
    module := "run", main_args := none }

/-- Concrete lockfile command entry: `run`, owned by `myapp`, referring to
the undeclared module `missing`. -/
def commandRunMissing : LockfileCommand :=
  { name := "run", package_name := "myapp", package_version := "1.0.0",
    module := "missing", main_args := none }

/-- Concrete lockfile command entry: `foo`, owned by dependency package
`p`, referring to module `bar`. -/
def commandFooDependency : LockfileCommand :=
  { name := "foo", package_name := "p", package_version := "1.0.0",
    module := "bar", main_args := none }

/-- Concrete lockfile: command `run` owned by package `myapp` (a local
command). -/
def lockfileLocal : Lockfile :=
  { modules := [], commands := [("run", commandRunLocal)] }

/-- Concrete lockfile: command `foo` owned by dependency package `p`, whose
module `bar` is present in the module table with cache key `k1`. -/
def lockfileDependency : Lockfile :=
  { modules := [(("p", "1.0.0", "bar"),
      { name := "bar", source := "bar.wasm", manifest_rel_path := "p",
        prehashed_module_key := "k1" })],
    commands := [("foo", commandFooDependency)] }

/-- Concrete lockfile: command `run` owned by `myapp` but referring to a
module `missing` that the manifest does not declare. -/
def lockfileBrokenModule : Lockfile :=
  { modules := [], commands := [("run", commandRunMissing)] }

/-- Concrete lockfile: command `foo` present in the command table but with
no matching entry in the module table. -/
def lockfileDanglingCommand : Lockfile :=
  { modules := [], commands := [("foo", commandFooDependency)] }

/-- Concrete environment: manifest and lockfile both present in the local
directory `/proj`, nothing anywhere else. -/
def envLocalFound : Env :=
  { find_manifest := fun d =>
      if d = "/proj" then ManifestResult.manifest manifestLocal else ManifestResult.noManifest,
    find_lockfile := fun d =>
      if d = "/proj" then LockfileResult.lockfile lockfileLocal else LockfileResult.noLockfile,
    current_dir := Except.ok "/proj",
    globals_directory := Except.ok "/g" }

/-- Concrete environment: identical to `envLocalFound` in the local
directory, but with a different global directory whose lockfile also
resolves the command. -/
def envLocalFoundGlobalNoise : Env :=
  { find_manifest := fun d =>
      if d = "/proj" then ManifestResult.manifest manifestLocal else ManifestResult.noManifest,
    find_lockfile := fun d =>
      if d = "/proj" then LockfileResult.lockfile lockfileLocal
      else if d = "/g2" then LockfileResult.lockfile lockfileDependency
      else LockfileResult.noLockfile,
    current_dir := Except.ok "/proj",
    globals_directory := Except.ok "/g2" }

/-- Concrete environment: nothing in the local directory `/l`, a lockfile
resolving `foo` in the global directory `/g`. -/
def envGlobalFound : Env :=
  { find_manifest := fun _ => ManifestResult.noManifest,
    find_lockfile := fun d =>
      if d = "/g" then LockfileResult.lockfile lockfileDependency else LockfileResult.noLockfile,
    current_dir := Except.ok "/l",
    globals_directory := Except.ok "/g" }

/-- Concrete environment: the local directory's manifest fails to parse. -/
def envLocalError : Env :=
  { find_manifest := fun d =>
      if d = "/l" then ManifestResult.manifestError "bad toml" else ManifestResult.noManifest,
    find_lockfile := fun _ => LockfileResult.noLockfile,
    current_dir := Except.ok "/l",
    globals_directory := Except.ok "/g" }

/-- Concrete environment: like `envLocalError` in the local directory, but
with a global lockfile that would resolve the command if consulted. -/
def envLocalErrorGlobalNoise : Env :=
  { find_manifest := fun d =>
      if d = "/l" then ManifestResult.manifestError "bad toml" else ManifestResult.noManifest,
    find_lockfile := fun d =>
      if d = "/g3" then LockfileResult.lockfile lockfileDependency else LockfileResult.noLockfile,
    current_dir := Except.ok "/l",
    globals_directory := Except.ok "/g3" }

/-- Concrete environment: a manifest but no lockfile in `/p` (the fatal
precondition violation), and empty directories elsewhere. -/
def envManifestOnly : Env :=
  { find_manifest := fun d =>
      if d = "/p" then ManifestResult.manifest manifestLocal else ManifestResult.noManifest,
    find_lockfile := fun _ => LockfileResult.noLockfile,
    current_dir := Except.ok "/p",
    globals_directory := Except.ok "/g" }

/-- Helper: a successful module lookup fixes the command's prehashed cache
key to that module's key. -/
theorem get_module_ok_prehashed (l : Lockfile) (cmd : LockfileCommand) (m : LockfileModule)
    (h : l.get_module cmd.package_name cmd.package_version cmd.module = Except.ok m) :
    l.get_prehashed_cache_key_from_command cmd = some m.prehashed_module_key := by
  unfold Lockfile.get_module at h
  unfold Lockfile.get_prehashed_cache_key_from_command
  cases hf : l.modules.find?
      (fun p => p.fst == (cmd.package_name, cmd.package_version, cmd.module)) with
  | none => rw [hf] at h; cases h
  | some p => rw [hf] at h; cases h; simp [hf]

/-- Helper: `find_command_in_directory` only consults the loaders at the
searched directory, so environments agreeing there produce the same
outcome. -/
theorem find_command_in_directory_congr (env env' : Env) (directory : Path)
    (command_name : String)
    (hm : env'.find_manifest directory = env.find_manifest directory)
    (hl : env'.find_lockfile directory = env.find_lockfile directory) :
    FindCommandResult.find_command_in_directory env' directory command_name
      = FindCommandResult.find_command_in_directory env directory command_name := by
  unfold FindCommandResult.find_command_in_directory
  rw [hm, hl]

/-- Claim C1: as stated the claim is false at a concrete input — for the
spec's own scenario (package `myapp`, module `run` with recorded source
`run.wasm`, base directory `/proj`), resolution returns the recorded source
path itself, not the base directory joined with it. -/
theorem claim1_counterexample :
    FindCommandResult.find_command_in_manifest_and_lockfile "run" manifestLocal
        lockfileLocal "/proj"
      = FindCommandResult.commandFound "run.wasm" "/proj" none "run" none
    ∧ pathJoin manifestLocal.base_directory_path "run.wasm" = "/proj/run.wasm"
    ∧ FindCommandResult.find_command_in_manifest_and_lockfile "run" manifestLocal
        lockfileLocal "/proj"
      ≠ FindCommandResult.commandFound
          (pathJoin manifestLocal.base_directory_path "run.wasm") "/proj" none "run" none := by
  refine ⟨by decide, by decide, by decide⟩

/-- Claim C1 (amended): when the lockfile's command entry for the requested
name has the manifest's package name and the manifest declares a module
with the entry's module name, resolution returns a Found descriptor whose
source is the module's recorded source path exactly as stored in the
manifest (not joined with `base_directory_path`), whose manifest_dir is the
manifest's `base_directory_path`, and whose prehashed_cache_key is none. -/
theorem claim1_local_command_descriptor (command_name : String) (manifest : Manifest)
    (lockfile : Lockfile) (directory : Path) (cmd : LockfileCommand) (m : Module)
    (hc : lockfile.get_command command_name = Except.ok cmd)
    (hp : cmd.package_name = manifest.package.name)
    (hm : manifest.module.bind
        (fun modules => modules.find? (fun x => x.name == cmd.module)) = some m) :
    FindCommandResult.find_command_in_manifest_and_lockfile command_name manifest
        lockfile directory
      = FindCommandResult.commandFound m.source manifest.base_directory_path
          cmd.main_args m.name none := by
  unfold FindCommandResult.find_command_in_manifest_and_lockfile
  rw [hc]
  simp [hp, hm]

/-- Claim C1 (amended) witness at the spec's scenario input. -/
theorem claim1_witness :
    lockfileLocal.get_command "run" = Except.ok commandRunLocal
    ∧ commandRunLocal.package_name = manifestLocal.package.name
    ∧ FindCommandResult.find_command_in_manifest_and_lockfile "run" manifestLocal
        lockfileLocal "/proj"
      = FindCommandResult.commandFound moduleRun.source manifestLocal.base_directory_path
          commandRunLocal.main_args moduleRun.name none := by
  refine ⟨by decide, by decide, ?_⟩
  exact claim1_local_command_descriptor "run" manifestLocal lockfileLocal "/proj"
    commandRunLocal moduleRun (by decide) (by decide) (by decide)

/-- Claim C8: in the both-present branch, when the command entry carries
the manifest's package name but the manifest declares no module with the
entry's module name, resolution returns the
`CommandFoundButCorrespondingModuleIsMissing` error carrying the command
name and the missing module name, never NotFound. -/
theorem claim8_missing_local_module (command_name : String) (manifest : Manifest)
    (lockfile : Lockfile) (directory : Path) (cmd : LockfileCommand)
    (hc : lockfile.get_command command_name = Except.ok cmd)
    (hp : cmd.package_name = manifest.package.name)
    (habsent : ∀ m ∈ manifest.module.getD [], m.name ≠ cmd.module) :
    FindCommandResult.find_command_in_manifest_and_lockfile command_name manifest
        lockfile directory
      = FindCommandResult.error (ErrAny.resolve
          (Error.commandFoundButCorrespondingModuleIsMissing command_name cmd.module)) := by
  have hnone : manifest.module.bind
      (fun modules => modules.find? (fun x => x.name == cmd.module)) = none := by
    cases hM : manifest.module with
    | none => rfl
    | some mods =>
      show mods.find? (fun x => x.name == cmd.module) = none
      rw [List.find?_eq_none]
      intro x hx
      have := habsent x (by rw [hM]; simpa using hx)
      simpa using this
  unfold FindCommandResult.find_command_in_manifest_and_lockfile
  rw [hc]
  simp [hp, hnone]

/-- Claim C8 witness at the spec's scenario input (command `run` referring
to module `missing`). -/
theorem claim8_witness :
    lockfileBrokenModule.get_command "run" = Except.ok commandRunMissing
    ∧ commandRunMissing.package_name = manifestLocal.package.name
    ∧ FindCommandResult.find_command_in_manifest_and_lockfile "run" manifestLocal
        lockfileBrokenModule "/proj"
      = FindCommandResult.error (ErrAny.resolve
          (Error.commandFoundButCorrespondingModuleIsMissing "run"
            commandRunMissing.module)) := by
  refine ⟨by decide, by decide, ?_⟩
  exact claim8_missing_local_module "run" manifestLocal lockfileBrokenModule "/proj"
    commandRunMissing (by decide) (by decide) (by decide)

/-- Claim C7: in the no-manifest, lockfile-present branch, a command entry
whose `(package_name, package_version, module)` key has no entry in the
module table resolves to NotFound carrying the command name, never a hard
Error. -/
theorem claim7_dangling_module_is_not_found (command_name : String) (lockfile : Lockfile)
    (directory : Path) (cmd : LockfileCommand)
    (hc : lockfile.get_command command_name = Except.ok cmd)
    (hmod : lockfile.modules.find?
        (fun p => p.fst == (cmd.package_name, cmd.package_version, cmd.module)) = none) :
    FindCommandResult.find_command_in_lockfile command_name lockfile directory
      = FindCommandResult.commandNotFound command_name := by
  unfold FindCommandResult.find_command_in_lockfile
  rw [hc]
  dsimp only
  unfold Lockfile.get_module
  rw [hmod]

/-- Claim C7 witness: lockfile with command `foo` but no module entry. -/
theorem claim7_witness :
    lockfileDanglingCommand.get_command "foo" = Except.ok commandFooDependency
    ∧ lockfileDanglingCommand.modules.find?
        (fun p => p.fst == (commandFooDependency.package_name,
          commandFooDependency.package_version, commandFooDependency.module)) = none
    ∧ FindCommandResult.find_command_in_lockfile "foo" lockfileDanglingCommand "/dir"
      = FindCommandResult.commandNotFound "foo" := by
  refine ⟨by decide, by decide, ?_⟩
  exact claim7_dangling_module_is_not_found "foo" lockfileDanglingCommand "/dir"
    commandFooDependency (by decide) (by decide)

/-- Claim C9: in the both-present branch the command-table lookup error is
mapped through the `From LockfileError` conversion, which turns the
lockfile's own command-not-found error into the NotFound outcome and every
other lockfile error into the Error outcome. -/
theorem claim9_lockfile_error_mapping :
    (∀ c, FindCommandResult.fromLockfileError (LockfileError.commandNotFound c)
      = FindCommandResult.commandNotFound c)
    ∧ (∀ msg, FindCommandResult.fromLockfileError (LockfileError.other msg)
      = FindCommandResult.error (ErrAny.lockfile (LockfileError.other msg)))
    ∧ (∀ (command_name : String) (manifest : Manifest) (lockfile : Lockfile)
        (directory : Path) (e : LockfileError),
        lockfile.get_command command_name = Except.error e →
        FindCommandResult.find_command_in_manifest_and_lockfile command_name manifest
            lockfile directory
          = FindCommandResult.fromLockfileError e) := by
  refine ⟨fun c => rfl, fun msg => rfl, ?_⟩
  intro command_name manifest lockfile directory e hc
  unfold FindCommandResult.find_command_in_manifest_and_lockfile
  rw [hc]

/-- Claim C9 witness: a lockfile without the requested command maps its
command-not-found error to the NotFound outcome. -/
theorem claim9_witness :
    lockfileDependency.get_command "run"
      = Except.error (LockfileError.commandNotFound "run")
    ∧ FindCommandResult.find_command_in_manifest_and_lockfile "run" manifestLocal
        lockfileDependency "/proj"
      = FindCommandResult.fromLockfileError (LockfileError.commandNotFound "run") := by
  refine ⟨by decide, ?_⟩
  exact claim9_lockfile_error_mapping.2.2 "run" manifestLocal lockfileDependency "/proj"
    (LockfileError.commandNotFound "run") (by decide)

/-- Claim C2: every Found descriptor carries a prehashed cache key exactly
when the command is not the manifest's own: in the both-present branch a
command owned by the manifest's package yields no key and a dependency
command always yields one, and in the no-manifest lockfile-only branch a
Found descriptor always carries one. -/
theorem claim2_cache_key_presence (command_name : String) (manifest : Manifest)
    (lockfile : Lockfile) (directory : Path) (s md : Path) (a : Option String)
    (mn : String) (key : Option String) :
    (∀ cmd, lockfile.get_command command_name = Except.ok cmd →
      FindCommandResult.find_command_in_manifest_and_lockfile command_name manifest
          lockfile directory
        = FindCommandResult.commandFound s md a mn key →
      ((cmd.package_name = manifest.package.name → key = none)
        ∧ (cmd.package_name ≠ manifest.package.name → key.isSome)))
    ∧ (FindCommandResult.find_command_in_lockfile command_name lockfile directory
        = FindCommandResult.commandFound s md a mn key → key.isSome) := by
  constructor
  · intro cmd hc hr
    unfold FindCommandResult.find_command_in_manifest_and_lockfile at hr
    rw [hc] at hr
    dsimp only at hr
    by_cases hp : cmd.package_name = manifest.package.name
    · rw [if_pos hp] at hr
      refine ⟨fun _ => ?_, fun hne => absurd hp hne⟩
      cases hfind : manifest.module.bind
          (fun modules => modules.find? (fun x => x.name == cmd.module)) with
      | none => rw [hfind] at hr; cases hr
      | some m => rw [hfind] at hr; cases hr; rfl
    · rw [if_neg hp] at hr
      refine ⟨fun hpeq => absurd hpeq hp, fun _ => ?_⟩
      cases hmod : lockfile.get_module cmd.package_name cmd.package_version cmd.module with
      | error e => rw [hmod] at hr; cases hr
      | ok m =>
        rw [hmod] at hr
        cases hr
        rw [get_module_ok_prehashed lockfile cmd m hmod]
        rfl
  · intro hr
    unfold FindCommandResult.find_command_in_lockfile at hr
    cases hc : lockfile.get_command command_name with
    | error e => rw [hc] at hr; cases hr
    | ok cmd =>
      rw [hc] at hr
      dsimp only at hr
      cases hmod : lockfile.get_module cmd.package_name cmd.package_version cmd.module with
      | error e => rw [hmod] at hr; cases hr
      | ok m =>
        rw [hmod] at hr
        cases hr
        rw [get_module_ok_prehashed lockfile cmd m hmod]
        rfl

/-- Claim C2 witness: the local command `run` resolves with no cache key,
and the dependency command `foo` resolves with one, in both the
both-present and the lockfile-only branch. -/
theorem claim2_witness :
    ((commandRunLocal.package_name = manifestLocal.package.name → (none : Option String) = none)
      ∧ (commandRunLocal.package_name ≠ manifestLocal.package.name →
          (none : Option String).isSome))
    ∧ ((commandFooDependency.package_name = manifestLocal.package.name →
          (some "k1" : Option String) = none)
      ∧ (commandFooDependency.package_name ≠ manifestLocal.package.name →
          (some "k1" : Option String).isSome))
    ∧ (some "k1" : Option String).isSome := by
  refine ⟨?_, ?_, ?_⟩
  · exact (claim2_cache_key_presence "run" manifestLocal lockfileLocal "/proj"
      "run.wasm" "/proj" none "run" none).1 commandRunLocal (by decide) (by decide)
  · exact (claim2_cache_key_presence "foo" manifestLocal lockfileDependency "/proj"
      "/proj/bar.wasm" "/proj/p" none "bar" (some "k1")).1 commandFooDependency
      (by decide) (by decide)
  · exact (claim2_cache_key_presence "foo" manifestLocal lockfileDependency "/dir"
      "/dir/bar.wasm" "/dir/p" none "bar" (some "k1")).2 (by decide)

/-- Claim C3: a directory where the manifest loader reports a manifest and
the lockfile loader reports no lockfile makes resolution panic for every
command name — it never returns NotFound, Found, or an ordinary Error. -/
theorem claim3_manifest_without_lockfile_panics (env : Env) (directory : Path)
    (command_name : String) (m : Manifest)
    (hman : env.find_manifest directory = ManifestResult.manifest m)
    (hlock : env.find_lockfile directory = LockfileResult.noLockfile) :
    FindCommandResult.find_command_in_directory env directory command_name
      = Panics.panicked ("Manifest exists, but lockfile not found!") := by
  unfold FindCommandResult.find_command_in_directory
  rw [hman, hlock]

/-- Claim C3 witness at the concrete manifest-only environment. -/
theorem claim3_witness :
    envManifestOnly.find_manifest "/p" = ManifestResult.manifest manifestLocal
    ∧ envManifestOnly.find_lockfile "/p" = LockfileResult.noLockfile
    ∧ FindCommandResult.find_command_in_directory envManifestOnly "/p" "run"
      = Panics.panicked ("Manifest exists, but lockfile not found!") := by
  refine ⟨by decide, by decide, ?_⟩
  exact claim3_manifest_without_lockfile_panics envManifestOnly "/p" "run" manifestLocal
    (by decide) (by decide)

/-- Claim C6: a directory with neither manifest nor lockfile resolves every
command name to NotFound carrying that name. -/
theorem claim6_empty_directory_not_found (env : Env) (directory : Path)
    (command_name : String)
    (hman : env.find_manifest directory = ManifestResult.noManifest)
    (hlock : env.find_lockfile directory = LockfileResult.noLockfile) :
    FindCommandResult.find_command_in_directory env directory command_name
      = Panics.ok (FindCommandResult.commandNotFound command_name) := by
  unfold FindCommandResult.find_command_in_directory
  rw [hman, hlock]

/-- Claim C6 witness at a concrete empty directory. -/
theorem claim6_witness :
    envGlobalFound.find_manifest "/l" = ManifestResult.noManifest
    ∧ envGlobalFound.find_lockfile "/l" = LockfileResult.noLockfile
    ∧ FindCommandResult.find_command_in_directory envGlobalFound "/l" "foo"
      = Panics.ok (FindCommandResult.commandNotFound "foo") := by
  refine ⟨by decide, by decide, ?_⟩
  exact claim6_empty_directory_not_found envGlobalFound "/l" "foo" (by decide) (by decide)

/-- Claim C4: the local scope wins — when local resolution is Found the
returned descriptor is the local one with `is_global = false` regardless of
anything in the global scope (expressed by an arbitrary second environment
agreeing with the first only locally), and when local resolution is
NotFound and global resolution is Found the returned descriptor has
`is_global = true`. -/
theorem claim4_scope_precedence (env env' : Env) (command_name : String) (dir : Path)
    (hcd : env.current_dir = Except.ok dir)
    (hcd' : env'.current_dir = Except.ok dir)
    (hm : env'.find_manifest dir = env.find_manifest dir)
    (hl : env'.find_lockfile dir = env.find_lockfile dir) :
    (∀ s md a mn key,
      FindCommandResult.find_command_in_directory env dir command_name
        = Panics.ok (FindCommandResult.commandFound s md a mn key) →
      get_command_from_anywhere env' command_name
        = Panics.ok (Except.ok (Command.mk s md a mn false key)))
    ∧ (∀ c gdir s md a mn key,
      FindCommandResult.find_command_in_directory env dir command_name
        = Panics.ok (FindCommandResult.commandNotFound c) →
      env.globals_directory = Except.ok gdir →
      FindCommandResult.find_command_in_directory env gdir command_name
        = Panics.ok (FindCommandResult.commandFound s md a mn key) →
      get_command_from_anywhere env command_name
        = Panics.ok (Except.ok (Command.mk s md a mn true key))) := by
  constructor
  · intro s md a mn key hloc
    unfold get_command_from_anywhere
    rw [hcd']
    dsimp only
    rw [find_command_in_directory_congr env env' dir command_name hm hl, hloc]
  · intro c gdir s md a mn key hloc hglob hgres
    unfold get_command_from_anywhere
    rw [hcd]
    dsimp only
    rw [hloc]
    dsimp only
    rw [hglob]
    dsimp only
    rw [hgres]

/-- Claim C4 witness: a command found locally is returned with
`is_global = false` even when the global directory also resolves it, and a
command absent locally but found globally is returned with
`is_global = true`. -/
theorem claim4_witness :
    get_command_from_anywhere envLocalFoundGlobalNoise "run"
      = Panics.ok (Except.ok (Command.mk "run.wasm" "/proj" none "run" false none))
    ∧ get_command_from_anywhere envGlobalFound "foo"
      = Panics.ok (Except.ok (Command.mk "/g/bar.wasm" "/g/p" none "bar" true (some "k1"))) := by
  constructor
  · exact (claim4_scope_precedence envLocalFound envLocalFoundGlobalNoise "run" "/proj"
      (by decide) (by decide) (by decide) (by decide)).1
      "run.wasm" "/proj" none "run" none (by decide)
  · exact (claim4_scope_precedence envGlobalFound envGlobalFound "foo" "/l"
      (by decide) (by decide) (by decide) (by decide)).2
      "foo" "/g" "/g/bar.wasm" "/g/p" none "bar" (some "k1")
      (by decide) (by decide) (by decide)

/-- Claim C5: when local resolution produces an Error, the controller
returns `ErrorReadingLocalDirectory` carrying the command name and the
rendered cause, for any global-scope contents (expressed by an arbitrary
second environment agreeing with the first only locally) — the error is
neither masked by global fallback nor downgraded to CommandNotFound. -/
theorem claim5_local_error_not_masked (env env' : Env) (command_name : String)
    (dir : Path) (e : ErrAny)
    (_hcd : env.current_dir = Except.ok dir)
    (hcd' : env'.current_dir = Except.ok dir)
    (hm : env'.find_manifest dir = env.find_manifest dir)
    (hl : env'.find_lockfile dir = env.find_lockfile dir)
    (hloc : FindCommandResult.find_command_in_directory env dir command_name
      = Panics.ok (FindCommandResult.error e)) :
    get_command_from_anywhere env' command_name
      = Panics.ok (Except.error (Error.errorReadingLocalDirectory command_name e.toStr)) := by
  unfold get_command_from_anywhere
  rw [hcd']
  dsimp only
  rw [find_command_in_directory_congr env env' dir command_name hm hl, hloc]

/-- Claim C5 witness: a broken local manifest yields the local-directory
error even when the global directory could resolve the command. -/
theorem claim5_witness :
    FindCommandResult.find_command_in_directory envLocalError "/l" "foo"
      = Panics.ok (FindCommandResult.error (ErrAny.manifestLoad "bad toml"))
    ∧ get_command_from_anywhere envLocalErrorGlobalNoise "foo"
      = Panics.ok (Except.error
          (Error.errorReadingLocalDirectory "foo" (ErrAny.manifestLoad "bad toml").toStr)) := by
  refine ⟨by decide, ?_⟩
  exact claim5_local_error_not_masked envLocalError envLocalErrorGlobalNoise "foo" "/l"
    (ErrAny.manifestLoad "bad toml") (by decide) (by decide) (by decide) (by decide)
    (by decide)

/-- Claim C10: for every config, `get` at key `registry.token` never
returns a value (the accessor is stubbed and panics), while `get` at key
`registry.url` returns the stored url. -/
theorem claim10_token_get_stubbed (config : Config) :
    Config.get config ("registry.token") = Panics.panicked ("not implemented")
    ∧ Config.get config ("registry.url") = Panics.ok (Except.ok config.registry.url) := by
  constructor <;> rfl

end Wapm
